import Mathlib

/-!
Verification of the `ComfyUI-wanBlockswap` node (`nodes.py`).

The repository registers two lifecycle callbacks on a cloned `ModelPatcher`:

* `swap_blocks_after_load` (the Residency Scheduler): on a `WAN21` model it
  moves each transformer block whose index `b` satisfies `b > blocks_to_swap`
  to the load (compute) device and every other block to the offload device,
  optionally relocates the `text_embedding` and `img_emb` sub-modules, and
  ends with `soft_empty_cache()` followed by `gc.collect()`.
* `cleanup_after_sampling` (the Cleanup Scheduler): calls
  `unpatch_model(offload_device, unpatch_weights=True)` and then the same
  memory-reclamation pair.

The embedding below models the mutable `ModelPatcher` state explicitly and
records every collaborator call as an `Event`, in execution order, so that
ordering and synchronicity properties can be stated about the trace.
-/

namespace WanBlockSwap

/-- A memory-tier identifier (a torch device). The node treats devices as
opaque tokens, so an inductive of distinguishable tags suffices. -/
inductive Device where
  | gpu : Device
  | cpu : Device
  | dev : Nat → Device
deriving DecidableEq, Repr

/-- The WAN2.1 diffusion model, restricted to the attributes that
`swap_blocks_after_load` touches: the ordered block sequence (each block
represented by its current device residency) and the two auxiliary
embedding sub-modules (likewise by residency). -/
structure WanUNet where
  blocks : List Device
  text_embedding : Device
  img_emb : Device
deriving DecidableEq, Repr

/-- `model_patcher.model`. The Boolean `isWAN21` embeds the
`isinstance(base_model, WAN21)` test of `nodes.py` line 66. -/
structure BaseModel where
  isWAN21 : Bool
  diffusion_model : WanUNet
deriving DecidableEq, Repr

/-- Lifecycle hook points used by the node: `CallbacksMP.ON_LOAD` and
`CallbacksMP.ON_CLEANUP`. -/
inductive CallbackPhase where
  | on_load : CallbackPhase
  | on_cleanup : CallbackPhase
deriving DecidableEq, Repr

/-- The slice of `comfy.model_patcher.ModelPatcher` state the node reads or
writes: the wrapped base model, the device pair, the parameter state
(current weights, pristine baseline, and where the patched state lives),
and the keyed callback table. -/
structure ModelPatcher where
  model : BaseModel
  load_device : Device
  offload_device : Device
  weights : List Int
  baseline_weights : List Int
  weights_device : Device
  callbacks : List (CallbackPhase × String)
deriving DecidableEq, Repr

/-- Observable collaborator calls issued by the two callbacks, listed in
execution order. A `to(...)` call records the torch `non_blocking`
argument; omitting it in Python means `non_blocking=False`. -/
inductive Event where
  | block_to : Nat → Device → Bool → Event
  | txt_emb_to : Device → Bool → Event
  | img_emb_to : Device → Bool → Event
  | unpatch : Device → Event
  | soft_empty_cache : Event
  | gc_collect : Event
  | warn_not_wan21 : Event
deriving DecidableEq, Repr

/-- The user policy captured by `WanVideoBlockSwap.set_callback`
(`blocks_to_swap` is an INT widget with min 0, max 40). -/
structure Policy where
  blocks_to_swap : Nat
  offload_img_emb : Bool
  offload_txt_emb : Bool
  use_non_blocking : Bool
deriving DecidableEq, Repr

/-- Residency target for the block at index `b` (`nodes.py` line 70):
`main_device if b > blocks_to_swap else offload_device`. -/
def blockTarget (blocks_to_swap : Nat) (main offload : Device) (b : Nat) : Device :=
  if b > blocks_to_swap then main else offload

/-- The ON_LOAD callback `swap_blocks_after_load` (`nodes.py` lines 59-84).
Returns the patcher after the callback together with the ordered trace of
collaborator calls. The host passes `device_to`, `lowvram_model_memory`,
`force_patch_weights` and `full_load`; the body never reads them (it takes
its devices from the patcher itself). -/
def swap_blocks_after_load (pol : Policy) (model_patcher : ModelPatcher)
    (device_to : Device) (lowvram_model_memory : Nat)
    (force_patch_weights : Bool) (full_load : Bool) :
    ModelPatcher × List Event :=
  let base_model := model_patcher.model
  let main_device := model_patcher.load_device
  let offload_device := model_patcher.offload_device
  if base_model.isWAN21 then
    let unet := base_model.diffusion_model
    let blocks' := unet.blocks.mapIdx fun b _ =>
      blockTarget pol.blocks_to_swap main_device offload_device b
    let blockEvents := (List.range unet.blocks.length).map fun b =>
      Event.block_to b (blockTarget pol.blocks_to_swap main_device offload_device b) false
    let txtPair :=
      if pol.offload_txt_emb then
        (offload_device, [Event.txt_emb_to offload_device pol.use_non_blocking])
      else
        (unet.text_embedding, ([] : List Event))
    let imgPair :=
      if pol.offload_img_emb then
        (offload_device, [Event.img_emb_to offload_device pol.use_non_blocking])
      else
        (unet.img_emb, ([] : List Event))
    ({ model_patcher with
        model := { base_model with diffusion_model :=
          { blocks := blocks', text_embedding := txtPair.1, img_emb := imgPair.1 } } },
      blockEvents ++ txtPair.2 ++ imgPair.2
        ++ [Event.soft_empty_cache, Event.gc_collect])
  else
    (model_patcher, [Event.warn_not_wan21, Event.soft_empty_cache, Event.gc_collect])

end WanBlockSwap

namespace WanBlockSwap

/-- Modelled from the spec: `ModelPatcher.unpatch_model(device_to,
unpatch_weights=True)` is provided by the host's patching layer
(`comfy.model_patcher`), which is outside this repository. Per the spec's
collaborator interface it fully reverses any applied weight patches,
restoring baseline parameter values, and moves the patched state to
`device_to`. -/
def unpatch_model (p : ModelPatcher) (device_to : Device) : ModelPatcher :=
  { p with weights := p.baseline_weights, weights_device := device_to }

/-- The ON_CLEANUP callback `cleanup_after_sampling` (`nodes.py` lines
45-55): unpatch to the offload device, then `soft_empty_cache()` and
`gc.collect()`. -/
def cleanup_after_sampling (p : ModelPatcher) : ModelPatcher × List Event :=
  let p' := unpatch_model p p.offload_device
  (p', [Event.unpatch p.offload_device, Event.soft_empty_cache, Event.gc_collect])

/-- Modelled from the spec: the host's memory-reclamation primitives and
unpatching layer may fail independently of this node, so the cleanup
callback is also stated generically in the unpatching collaborator. Per the
spec's collaborator interface the reclamation pair
(`soft_empty_cache`/`gc.collect`) never raises, so the only fallible call
in `cleanup_after_sampling` is `unpatch_model`; the callback wraps it in no
handler (`nodes.py` line 49), so an error propagates as-is and the
reclamation pair is skipped. -/
def cleanup_after_samplingE
    (unpatch : ModelPatcher → Device → Except Nat ModelPatcher)
    (p : ModelPatcher) : Except Nat (ModelPatcher × List Event) :=
  match unpatch p p.offload_device with
  | Except.error e => Except.error e
  | Except.ok p' =>
      Except.ok (p', [Event.unpatch p.offload_device,
                      Event.soft_empty_cache, Event.gc_collect])

/-- An unpatching collaborator that always fails (used to exercise the
error path of `cleanup_after_samplingE`). -/
def failingUnpatch : ModelPatcher → Device → Except Nat ModelPatcher :=
  fun _ _ => Except.error 3

/-- The unpatching collaborator that succeeds with the spec-modelled
`unpatch_model`. -/
def okUnpatch : ModelPatcher → Device → Except Nat ModelPatcher :=
  fun p d => Except.ok (unpatch_model p d)

/-- Per-event form of the synchronicity discipline of
`swap_blocks_after_load`: block transfers pass no `non_blocking` argument
(so it is `False`), while the two auxiliary relocations pass
`non_blocking=use_non_blocking`. -/
def honorsNonBlocking (useNB : Bool) : Event → Prop
  | Event.block_to _ _ nb => nb = false
  | Event.txt_emb_to _ nb => nb = useNB
  | Event.img_emb_to _ nb => nb = useNB
  | _ => True

/-- Replace the element at index `i` (identity outside the list), i.e. an
in-place mutation of one handle in a heap of handles. -/
def updateAt {α : Type} : List α → Nat → (α → α) → List α
  | [], _, _ => []
  | a :: as, 0, f => f a :: as
  | a :: as, n + 1, f => a :: updateAt as n f

/-- A heap of live `ModelPatcher` handles, addressed by index: Python
aliasing made explicit so that "the clone is mutated, the original is not"
is expressible. -/
structure Store where
  patchers : List ModelPatcher
deriving DecidableEq, Repr

/-- A default patcher (only used to totalize out-of-range heap reads). -/
def defaultPatcher : ModelPatcher :=
  { model := { isWAN21 := false,
               diffusion_model := { blocks := [], text_embedding := Device.cpu,
                                    img_emb := Device.cpu } },
    load_device := Device.gpu, offload_device := Device.cpu,
    weights := [], baseline_weights := [], weights_device := Device.cpu,
    callbacks := [] }

/-- `model.clone()`: allocate a fresh handle whose state (including the
callback table) is copied from handle `i`; returns the new handle's
address. -/
def Store.clone (s : Store) (i : Nat) : Store × Nat :=
  ({ patchers := s.patchers ++ [s.patchers.getD i defaultPatcher] },
   s.patchers.length)

/-- `model.add_callback_with_key(phase, key, fn)`: append a keyed entry to
the callback table of the handle at address `i`. -/
def Store.add_callback_with_key (s : Store) (i : Nat)
    (phase : CallbackPhase) (key : String) : Store :=
  { patchers := updateAt s.patchers i
      (fun p => { p with callbacks := p.callbacks ++ [(phase, key)] }) }

/-- The ON_LOAD registration key `f"wan_block_swap_{instance_id}"`
(`nodes.py` line 89). -/
def swapKey (instance_id : Nat) : String :=
  "wan_block_swap_" ++ Nat.repr instance_id

/-- The ON_CLEANUP registration key `f"wan_cleanup_{instance_id}"`
(`nodes.py` line 92). -/
def cleanupKey (instance_id : Nat) : String :=
  "wan_cleanup_" ++ Nat.repr instance_id

/-- `WanVideoBlockSwap.set_callback` (`nodes.py` lines 38-94): clone the
incoming handle at address `i`, register the two callbacks on the clone
under the instance-derived keys, and return the clone's address. The
policy is captured by the registered closures and plays no role in the
registration itself. -/
def set_callback (instance_id : Nat) (pol : Policy) (s : Store) (i : Nat) :
    Store × Nat :=
  let cloned := s.clone i
  let s2 := cloned.1.add_callback_with_key cloned.2 CallbackPhase.on_load
    (swapKey instance_id)
  let s3 := s2.add_callback_with_key cloned.2 CallbackPhase.on_cleanup
    (cleanupKey instance_id)
  (s3, cloned.2)

/-- Decimal value of a digit character ('0'..'9'); 10 on anything else. -/
def decodeDigit (c : Char) : Nat :=
  if c = '0' then 0 else if c = '1' then 1 else if c = '2' then 2 else
  if c = '3' then 3 else if c = '4' then 4 else if c = '5' then 5 else
  if c = '6' then 6 else if c = '7' then 7 else if c = '8' then 8 else
  if c = '9' then 9 else 10

/-- Decimal value of a digit string, most significant first. -/
def decodeDigits (cs : List Char) : Nat :=
  cs.foldl (fun a c => 10 * a + decodeDigit c) 0

/-- Test fixture: a recognized WAN21 model with three blocks, everything
initially on the compute device. -/
def unetW : WanUNet :=
  { blocks := [Device.gpu, Device.gpu, Device.gpu],
    text_embedding := Device.gpu, img_emb := Device.gpu }

/-- Test fixture: the patcher wrapping `unetW`. -/
def patcherW : ModelPatcher :=
  { model := { isWAN21 := true, diffusion_model := unetW },
    load_device := Device.gpu, offload_device := Device.cpu,
    weights := [1, 2], baseline_weights := [0, 0],
    weights_device := Device.gpu, callbacks := [] }

/-- Test fixture: cutoff 1 on three blocks, offload the text embedding
with non-blocking transfers. -/
def polW : Policy :=
  { blocks_to_swap := 1, offload_img_emb := false, offload_txt_emb := true,
    use_non_blocking := true }

/-- Test fixture: maximal cutoff (N - 1 = 2) for the three-block model. -/
def polMax : Policy :=
  { blocks_to_swap := 2, offload_img_emb := false, offload_txt_emb := false,
    use_non_blocking := false }

/-- Test fixture: a patcher whose base model is not a WAN21 instance. -/
def patcherO : ModelPatcher :=
  { model := { isWAN21 := false, diffusion_model := unetW },
    load_device := Device.gpu, offload_device := Device.cpu,
    weights := [5], baseline_weights := [4],
    weights_device := Device.gpu, callbacks := [] }

/-- Test fixture: a one-handle heap holding `patcherW`. -/
def storeW : Store := { patchers := [patcherW] }

end WanBlockSwap

namespace WanBlockSwap

theorem updateAt_getElem?_ne {α : Type} (l : List α) (f : α → α) {i j : Nat}
    (h : i ≠ j) : (updateAt l j f)[i]? = l[i]? := by
  induction l generalizing i j with
  | nil => simp [updateAt]
  | cons a as ih =>
    cases j with
    | zero =>
      cases i with
      | zero => exact absurd rfl h
      | succ i => simp [updateAt]
    | succ j =>
      cases i with
      | zero => simp [updateAt]
      | succ i => simpa [updateAt] using ih (fun hc => h (by omega))

theorem updateAt_getElem?_eq {α : Type} (l : List α) (f : α → α) (j : Nat) :
    (updateAt l j f)[j]? = Option.map f l[j]? := by
  induction l generalizing j with
  | nil => simp [updateAt]
  | cons a as ih =>
    cases j with
    | zero => simp [updateAt]
    | succ j => simpa [updateAt] using ih j

theorem decodeDigit_digitChar :
    ∀ n : Nat, n < 10 → decodeDigit (Nat.digitChar n) = n := by
  decide

theorem toDigitsCore_append (fuel : Nat) : ∀ (n : Nat) (ds : List Char),
    Nat.toDigitsCore 10 fuel n ds = Nat.toDigitsCore 10 fuel n [] ++ ds := by
  induction fuel with
  | zero => intro n ds; simp [Nat.toDigitsCore]
  | succ fuel ih =>
    intro n ds
    simp only [Nat.toDigitsCore]
    by_cases h : n / 10 = 0
    · rw [if_pos h, if_pos h]
      simp
    · rw [if_neg h, if_neg h,
        ih (n / 10) (Nat.digitChar (n % 10) :: ds),
        ih (n / 10) [Nat.digitChar (n % 10)]]
      simp

theorem decodeDigits_toDigitsCore (fuel : Nat) : ∀ n : Nat, n < fuel →
    decodeDigits (Nat.toDigitsCore 10 fuel n []) = n := by
  induction fuel with
  | zero => intro n h; omega
  | succ fuel ih =>
    intro n h
    simp only [Nat.toDigitsCore]
    by_cases h0 : n / 10 = 0
    · rw [if_pos h0]
      have hn : n < 10 := by omega
      rw [Nat.mod_eq_of_lt hn]
      simpa [decodeDigits] using decodeDigit_digitChar n hn
    · rw [if_neg h0, toDigitsCore_append]
      simp only [decodeDigits, List.foldl_append, List.foldl]
      have hrec : List.foldl (fun a c => 10 * a + decodeDigit c) 0
          (Nat.toDigitsCore 10 fuel (n / 10) []) = n / 10 :=
        ih (n / 10) (by omega)
      rw [hrec, decodeDigit_digitChar (n % 10) (by omega)]
      omega

theorem repr_injective {m n : Nat} (h : Nat.repr m = Nat.repr n) : m = n := by
  have hd : Nat.toDigits 10 m = Nat.toDigits 10 n := by
    have h2 := congrArg String.data h
    simpa [Nat.repr, List.asString] using h2
  have hm := decodeDigits_toDigitsCore (m + 1) m (Nat.lt_succ_self m)
  have hn := decodeDigits_toDigitsCore (n + 1) n (Nat.lt_succ_self n)
  rw [← hm, ← hn]
  show decodeDigits (Nat.toDigits 10 m) = decodeDigits (Nat.toDigits 10 n)
  rw [hd]

theorem swapKey_injective {i j : Nat} (h : swapKey i = swapKey j) : i = j := by
  apply repr_injective
  apply String.ext
  have hd := congrArg String.data h
  simp only [swapKey, String.data_append] at hd
  exact List.append_cancel_left hd

theorem cleanupKey_injective {i j : Nat} (h : cleanupKey i = cleanupKey j) :
    i = j := by
  apply repr_injective
  apply String.ext
  have hd := congrArg String.data h
  simp only [cleanupKey, String.data_append] at hd
  exact List.append_cancel_left hd

theorem swapKey_ne_cleanupKey (i j : Nat) : swapKey i ≠ cleanupKey j := by
  intro h
  have hd := congrArg String.data h
  simp only [swapKey, cleanupKey, String.data_append] at hd
  simp only [List.cons_append, List.nil_append, List.cons.injEq] at hd
  exact absurd hd.2.2.2.2.1 (by decide)

end WanBlockSwap

namespace WanBlockSwap

/-- Claim C1. For every cutoff within the widget bound (0..40), after
`swap_blocks_after_load` runs on a recognized `WAN21` model, every block
with index strictly greater than the cutoff resides on the compute (load)
device and every block with index less than or equal to the cutoff resides
on the offload device. -/
theorem residency_follows_cutoff (pol : Policy) (p : ModelPatcher)
    (dt : Device) (lm : Nat) (fp fl : Bool)
    (hwan : p.model.isWAN21 = true) (hcut : pol.blocks_to_swap ≤ 40)
    (b : Nat) (hb : b < p.model.diffusion_model.blocks.length) :
    (pol.blocks_to_swap < b →
      ((swap_blocks_after_load pol p dt lm fp fl).1.model.diffusion_model.blocks)[b]? =
        some p.load_device) ∧
    (b ≤ pol.blocks_to_swap →
      ((swap_blocks_after_load pol p dt lm fp fl).1.model.diffusion_model.blocks)[b]? =
        some p.offload_device) := by
  have hb' : p.model.diffusion_model.blocks[b]?.isSome := by
    simp [List.getElem?_eq_getElem hb]
  constructor
  · intro hgt
    simp only [swap_blocks_after_load, hwan, if_true]
    simp only [List.getElem?_mapIdx, blockTarget]
    rw [List.getElem?_eq_getElem hb]
    simp [hgt]
  · intro hle
    simp only [swap_blocks_after_load, hwan, if_true]
    simp only [List.getElem?_mapIdx, blockTarget]
    rw [List.getElem?_eq_getElem hb]
    simp [Nat.not_lt.mpr hle]

/-- Witness for C1: on the three-block fixture with cutoff 1, block 2 ends
on the compute device. -/
theorem residency_follows_cutoff_witness :
    ((swap_blocks_after_load polW patcherW Device.gpu 0 false
        false).1.model.diffusion_model.blocks)[2]? = some Device.gpu :=
  (residency_follows_cutoff polW patcherW Device.gpu 0 false false rfl
    (by decide) 2 (by decide)).1 (by decide)

/-- Claim C2 as stated is false: with N = 3 blocks and cutoff = N - 1 = 2
the last block (index 2) ends on the offload device, not the compute
device, because line 70 keeps a block on the compute device only when its
index strictly exceeds the cutoff and no index exceeds N - 1. -/
theorem max_cutoff_last_block_counterexample :
    ((swap_blocks_after_load polMax patcherW Device.gpu 0 false
        false).1.model.diffusion_model.blocks)[2]? = some Device.cpu ∧
      Device.cpu ≠ Device.gpu := by
  decide

/-- Claim C2 amended: when the cutoff equals N - 1, after the Residency
Scheduler runs every block — including the last — resides on the offload
device. -/
theorem max_cutoff_offloads_all_blocks (pol : Policy) (p : ModelPatcher)
    (dt : Device) (lm : Nat) (fp fl : Bool)
    (hwan : p.model.isWAN21 = true)
    (hcut : pol.blocks_to_swap = p.model.diffusion_model.blocks.length - 1)
    (b : Nat) (hb : b < p.model.diffusion_model.blocks.length) :
    ((swap_blocks_after_load pol p dt lm fp fl).1.model.diffusion_model.blocks)[b]? =
      some p.offload_device := by
  have hle : ¬ pol.blocks_to_swap < b := by omega
  simp only [swap_blocks_after_load, hwan, if_true]
  simp only [List.getElem?_mapIdx, blockTarget]
  rw [List.getElem?_eq_getElem hb]
  simp [hle]

/-- Witness for the amended C2: cutoff 2 = 3 - 1 sends block 2 of the
fixture to the offload device. -/
theorem max_cutoff_offloads_all_blocks_witness :
    ((swap_blocks_after_load polMax patcherW Device.gpu 0 false
        false).1.model.diffusion_model.blocks)[2]? = some Device.cpu :=
  max_cutoff_offloads_all_blocks polMax patcherW Device.gpu 0 false false
    rfl (by decide) 2 (by decide)

/-- Claim C3. On a model that is not a WAN21 instance the Residency
Scheduler leaves the patcher state untouched (no block residency change,
no auxiliary relocation) and its trace is only the warning plus the
memory-reclamation pass; the embedding is a total function, so no error is
raised on this path. -/
theorem non_wan21_is_noop (pol : Policy) (p : ModelPatcher)
    (dt : Device) (lm : Nat) (fp fl : Bool)
    (h : p.model.isWAN21 = false) :
    (swap_blocks_after_load pol p dt lm fp fl).1 = p ∧
    (swap_blocks_after_load pol p dt lm fp fl).2 =
      [Event.warn_not_wan21, Event.soft_empty_cache, Event.gc_collect] := by
  constructor <;> simp [swap_blocks_after_load, h]

/-- Witness for C3: the non-WAN21 fixture is returned unchanged with the
warning trace. -/
theorem non_wan21_is_noop_witness :
    (swap_blocks_after_load polMax patcherO Device.gpu 0 false false).1 =
        patcherO ∧
      (swap_blocks_after_load polMax patcherO Device.gpu 0 false false).2 =
        [Event.warn_not_wan21, Event.soft_empty_cache, Event.gc_collect] :=
  non_wan21_is_noop polMax patcherO Device.gpu 0 false false rfl

/-- Claim C4. Running the Cleanup Scheduler twice in succession with no
intervening inference leaves the model in the same state (in particular
the same baseline parameter state) as running it once. -/
theorem cleanup_idempotent (p : ModelPatcher) :
    (cleanup_after_sampling (cleanup_after_sampling p).1).1 =
      (cleanup_after_sampling p).1 := by
  simp [cleanup_after_sampling, unpatch_model]

/-- Claim C5. The Cleanup Scheduler raises exactly when the unpatching
collaborator raises, with the same error (the callback installs no
handler, so the failure propagates uncaught and the reclamation pair is
skipped); when unpatching succeeds the callback succeeds, so unpatch
failure is the only condition under which it raises. The reclamation
primitives themselves never raise by the spec's collaborator contract,
reflected in `cleanup_after_samplingE` having no other error source. -/
theorem cleanup_raises_iff_unpatch_raises
    (u : ModelPatcher → Device → Except Nat ModelPatcher)
    (p : ModelPatcher) :
    (∀ e, cleanup_after_samplingE u p = Except.error e ↔
        u p p.offload_device = Except.error e) ∧
    (∀ q, u p p.offload_device = Except.ok q →
        cleanup_after_samplingE u p =
          Except.ok (q, [Event.unpatch p.offload_device,
                         Event.soft_empty_cache, Event.gc_collect])) := by
  constructor
  · intro e
    cases hu : u p p.offload_device <;> simp [cleanup_after_samplingE, hu]
  · intro q hq
    simp [cleanup_after_samplingE, hq]

/-- Witness for C5: a failing unpatch makes the cleanup callback fail with
the same error, and a succeeding unpatch makes it succeed. -/
theorem cleanup_raises_iff_unpatch_raises_witness :
    cleanup_after_samplingE failingUnpatch patcherW = Except.error 3 ∧
    cleanup_after_samplingE okUnpatch patcherW =
      Except.ok (unpatch_model patcherW Device.cpu,
        [Event.unpatch Device.cpu, Event.soft_empty_cache,
         Event.gc_collect]) :=
  ⟨((cleanup_raises_iff_unpatch_raises failingUnpatch patcherW).1 3).2 rfl,
   (cleanup_raises_iff_unpatch_raises okUnpatch patcherW).2
     (unpatch_model patcherW Device.cpu) rfl⟩

/-- Claim C8. Both callbacks end with the memory-reclamation pass —
`soft_empty_cache` immediately followed by `gc.collect` as the final two
collaborator calls — after all device transfers (Residency Scheduler)
resp. after unpatching (Cleanup Scheduler); the pass appears nowhere
earlier in either trace. -/
theorem reclamation_pass_is_last (pol : Policy) (p : ModelPatcher)
    (dt : Device) (lm : Nat) (fp fl : Bool) :
    (∃ ms, (swap_blocks_after_load pol p dt lm fp fl).2 =
        ms ++ [Event.soft_empty_cache, Event.gc_collect] ∧
        Event.soft_empty_cache ∉ ms ∧ Event.gc_collect ∉ ms) ∧
    (∃ ms, (cleanup_after_sampling p).2 =
        ms ++ [Event.soft_empty_cache, Event.gc_collect] ∧
        Event.soft_empty_cache ∉ ms ∧ Event.gc_collect ∉ ms) := by
  constructor
  · cases hw : p.model.isWAN21 with
    | false =>
      refine ⟨[Event.warn_not_wan21], ?_, by simp, by simp⟩
      simp [swap_blocks_after_load, hw]
    | true =>
      cases ht : pol.offload_txt_emb <;> cases hi : pol.offload_img_emb <;>
        · simp only [swap_blocks_after_load, hw, ht, hi, Bool.false_eq_true,
            if_false, if_true]
          refine ⟨_, rfl, ?_, ?_⟩ <;>
            · intro hmem
              simp [List.mem_append, List.mem_map] at hmem
  · exact ⟨[Event.unpatch p.offload_device], rfl, by simp, by simp⟩

/-- Claim C9. The patcher state produced by `swap_blocks_after_load` —
hence the residency of every block and of both auxiliary sub-modules — is
independent of the host-internal load-sizing parameters (`device_to`,
`lowvram_model_memory`, `force_patch_weights`, `full_load`): the callback
body never reads them. -/
theorem swap_ignores_load_sizing (pol : Policy) (p : ModelPatcher)
    (dtA dtB : Device) (lmA lmB : Nat) (fpA fpB flA flB : Bool) :
    (swap_blocks_after_load pol p dtA lmA fpA flA).1 =
      (swap_blocks_after_load pol p dtB lmB fpB flB).1 := rfl

/-- Claim C10. Every per-block transfer in the Residency Scheduler's trace
is synchronous (`non_blocking = false`) whatever the policy's
asynchronous-transfer flag, while the relocations of the two auxiliary
sub-modules carry exactly the policy's `use_non_blocking` flag. -/
theorem block_moves_always_blocking (pol : Policy) (p : ModelPatcher)
    (dt : Device) (lm : Nat) (fp fl : Bool) :
    ∀ ev ∈ (swap_blocks_after_load pol p dt lm fp fl).2,
      honorsNonBlocking pol.use_non_blocking ev := by
  intro ev hmem
  cases hw : p.model.isWAN21 with
  | false =>
    simp [swap_blocks_after_load, hw] at hmem
    rcases hmem with rfl | rfl | rfl <;> trivial
  | true =>
    cases ht : pol.offload_txt_emb <;> cases hi : pol.offload_img_emb <;>
      simp [swap_blocks_after_load, hw, ht, hi] at hmem
    · rcases hmem with ⟨b, _, rfl⟩ | rfl | rfl <;>
        simp [honorsNonBlocking]
    · rcases hmem with ⟨b, _, rfl⟩ | rfl | rfl | rfl <;>
        simp [honorsNonBlocking]
    · rcases hmem with ⟨b, _, rfl⟩ | rfl | rfl | rfl <;>
        simp [honorsNonBlocking]
    · rcases hmem with ⟨b, _, rfl⟩ | rfl | rfl | rfl | rfl <;>
        simp [honorsNonBlocking]

/-- Witness for C10: in the fixture's trace (asynchronous flag set), the
block-0 transfer is synchronous and the text-embedding relocation carries
the flag. -/
theorem block_moves_always_blocking_witness :
    honorsNonBlocking true (Event.block_to 0 Device.cpu false) ∧
    honorsNonBlocking true (Event.txt_emb_to Device.cpu true) :=
  ⟨block_moves_always_blocking polW patcherW Device.gpu 0 false false
      (Event.block_to 0 Device.cpu false) (by decide),
   block_moves_always_blocking polW patcherW Device.gpu 0 false false
      (Event.txt_emb_to Device.cpu true) (by decide)⟩

/-- Claim C6. `set_callback` returns the address of a freshly allocated
clone (distinct from the incoming handle) carrying the two registered
callbacks on top of the cloned state, while the handle passed in is left
bit-for-bit unmodified — no callbacks registered on it and no residency
change. -/
theorem set_callback_returns_fresh_clone (iid : Nat) (pol : Policy)
    (s : Store) (i : Nat) (hi : i < s.patchers.length) :
    (set_callback iid pol s i).2 = s.patchers.length ∧
    (set_callback iid pol s i).2 ≠ i ∧
    ((set_callback iid pol s i).1.patchers)[i]? = s.patchers[i]? ∧
    ((set_callback iid pol s i).1.patchers)[(set_callback iid pol s i).2]? =
      some { s.patchers.getD i defaultPatcher with
        callbacks := (s.patchers.getD i defaultPatcher).callbacks ++
          [(CallbackPhase.on_load, swapKey iid),
           (CallbackPhase.on_cleanup, cleanupKey iid)] } := by
  refine ⟨rfl, ?_, ?_, ?_⟩
  · show s.patchers.length ≠ i
    omega
  · show (updateAt (updateAt (s.patchers ++ [s.patchers.getD i defaultPatcher])
        s.patchers.length _) s.patchers.length _)[i]? = s.patchers[i]?
    rw [updateAt_getElem?_ne _ _ (by omega),
        updateAt_getElem?_ne _ _ (by omega),
        List.getElem?_append, if_pos hi]
  · show (updateAt (updateAt (s.patchers ++ [s.patchers.getD i defaultPatcher])
        s.patchers.length _) s.patchers.length _)[s.patchers.length]? = _
    rw [updateAt_getElem?_eq, updateAt_getElem?_eq,
        List.getElem?_append, if_neg (by omega)]
    simp

/-- Witness for C6: configuring instance 7 on the one-handle heap returns
the fresh address 1, leaves handle 0 untouched, and handle 1 carries
exactly the two callbacks. -/
theorem set_callback_returns_fresh_clone_witness :
    (set_callback 7 polW storeW 0).2 = 1 ∧
    (set_callback 7 polW storeW 0).2 ≠ 0 ∧
    ((set_callback 7 polW storeW 0).1.patchers)[0]? = storeW.patchers[0]? ∧
    ((set_callback 7 polW storeW 0).1.patchers)[(set_callback 7 polW storeW 0).2]? =
      some { patcherW with
        callbacks := [(CallbackPhase.on_load, swapKey 7),
                      (CallbackPhase.on_cleanup, cleanupKey 7)] } :=
  set_callback_returns_fresh_clone 7 polW storeW 0 (by decide)

/-- Claim C7. `set_callback` registers exactly two closures — one on the
post-load hook and one on the post-use hook — under the keys
`wan_block_swap_{id}` and `wan_cleanup_{id}` derived from the instance's
identity, and for two configuration instances with distinct identities all
the registered keys are pairwise distinct (no collisions, within an
instance or across instances). -/
theorem registered_keys_are_unique (iidA iidB : Nat) (pol : Policy)
    (s : Store) (i : Nat) (hi : i < s.patchers.length) (h : iidA ≠ iidB) :
    ((set_callback iidA pol s i).1.patchers)[(set_callback iidA pol s i).2]? =
      some { s.patchers.getD i defaultPatcher with
        callbacks := (s.patchers.getD i defaultPatcher).callbacks ++
          [(CallbackPhase.on_load, swapKey iidA),
           (CallbackPhase.on_cleanup, cleanupKey iidA)] } ∧
    swapKey iidA ≠ swapKey iidB ∧
    cleanupKey iidA ≠ cleanupKey iidB ∧
    swapKey iidA ≠ cleanupKey iidA ∧
    swapKey iidA ≠ cleanupKey iidB ∧
    cleanupKey iidA ≠ swapKey iidB := by
  refine ⟨?_, fun hk => h (swapKey_injective hk),
    fun hk => h (cleanupKey_injective hk),
    swapKey_ne_cleanupKey iidA iidA,
    swapKey_ne_cleanupKey iidA iidB,
    fun hk => swapKey_ne_cleanupKey iidB iidA hk.symm⟩
  show (updateAt (updateAt (s.patchers ++ [s.patchers.getD i defaultPatcher])
      s.patchers.length _) s.patchers.length _)[s.patchers.length]? = _
  rw [updateAt_getElem?_eq, updateAt_getElem?_eq,
      List.getElem?_append, if_neg (by omega)]
  simp

/-- Witness for C7: instances 1 and 2 on the one-handle heap register the
two entries and all keys are distinct. -/
theorem registered_keys_are_unique_witness :
    ((set_callback 1 polW storeW 0).1.patchers)[(set_callback 1 polW storeW 0).2]? =
      some { patcherW with
        callbacks := [(CallbackPhase.on_load, swapKey 1),
                      (CallbackPhase.on_cleanup, cleanupKey 1)] } ∧
    swapKey 1 ≠ swapKey 2 ∧
    cleanupKey 1 ≠ cleanupKey 2 ∧
    swapKey 1 ≠ cleanupKey 1 ∧
    swapKey 1 ≠ cleanupKey 2 ∧
    cleanupKey 1 ≠ swapKey 2 :=
  registered_keys_are_unique 1 2 polW storeW 0 (by decide) (by decide)

end WanBlockSwap
